import Mathlib

/-!
Verification development for the zerreta-backend test grading and
level-progression logic (backend/server.js).  Stage and level are stored
as decimal strings in MongoDB and parsed with parseInt before use; the
embedding models them as the parsed natural numbers.  A missing
per-subject record is modelled as an Option that is none.
-/

namespace Zerreta

/-- Per-subject progression state stored on a Student record
(server.js, studentSchema subjects field): stage and level, parsed. -/
structure SubjectProgress where
  stage : Nat
  level : Nat
  deriving DecidableEq, Repr

/-- Level-update step of the legacy POST /student/complete-test handler
(server.js lines 848-854): rollover to the next stage happens only when
the stored level is already at least 5; otherwise the level is
incremented. -/
def completeTestStep (p : SubjectProgress) : SubjectProgress :=
  if p.level ≥ 5 then ⟨p.stage + 1, 1⟩ else ⟨p.stage, p.level + 1⟩

/-- Guard of the legacy POST /student/complete-test level update
(server.js lines 842-847): the update runs only if the client-supplied
stage and level match the stored ones, or name a strictly higher
stage or level. -/
def completeTestGuard (clientStage clientLevel : Nat) (p : SubjectProgress) : Bool :=
  (clientStage == p.stage && clientLevel == p.level) ||
  (p.stage < clientStage) ||
  (clientStage == p.stage && p.level < clientLevel)

/-- Progression effect of the legacy POST /student/complete-test handler
(server.js lines 825-863) on the stored per-subject record.  The update
block runs only when the submission passed (client flag or score at
least 70); a missing record is initialised to stage 1, level 1 in
memory, but is persisted only when the guard fires, since the save call
is inside the guarded block. -/
def completeTestHandler (passedLevel : Bool) (score : Int)
    (clientStage clientLevel : Nat) (db : Option SubjectProgress) :
    Option SubjectProgress :=
  if passedLevel || 70 ≤ score then
    let p := db.getD ⟨1, 1⟩
    if completeTestGuard clientStage clientLevel p then
      some (completeTestStep p)
    else db
  else db

/-- Level-update step of POST /student/test-history (server.js lines
3020-3042): parseInt(x) with a fallback of 1 maps a stored 0 to 1, the
level is incremented, and on exceeding 4 it resets to 1 with the stage
incremented. -/
def testHistoryStep (p : SubjectProgress) : SubjectProgress :=
  let cl := if p.level = 0 then 1 else p.level
  let cs := if p.stage = 0 then 1 else p.stage
  if cl + 1 > 4 then ⟨cs + 1, 1⟩ else ⟨cs, cl + 1⟩

/-- Progression effect of POST /student/test-history (server.js lines
2993-3046): the level update runs only when the client passedLevel flag
is set; a missing record is initialised to stage 1, level 1 first. -/
def testHistoryHandler (passedLevel : Bool) (db : Option SubjectProgress) :
    Option SubjectProgress :=
  if passedLevel then some (testHistoryStep (db.getD ⟨1, 1⟩)) else db

/-- POST /student/test-completion-level-update (server.js lines
3857-3898): the new level and stage are computed from the values read
from the database; the client-supplied currentLevel and currentStage
request fields are destructured but never used in the computation. -/
def testCompletionLevelUpdate (_clientCurrentLevel _clientCurrentStage : Nat)
    (db : Option SubjectProgress) : SubjectProgress :=
  let p := db.getD ⟨1, 1⟩
  if p.level + 1 > 4 then ⟨p.stage + 1, 1⟩ else ⟨p.stage, p.level + 1⟩

/-- POST /student/update-level (server.js lines 4032-4043): the stored
record is overwritten with the client-supplied newLevel and newStage. -/
def updateLevelHandler (clientNewStage clientNewLevel : Nat)
    (_db : Option SubjectProgress) : SubjectProgress :=
  ⟨clientNewStage, clientNewLevel⟩

/-- Claim C1 as stated fails on the legacy complete-test path: its
rollover test is level at least 5, so a passing attempt at stage 1,
level 4 stores stage 1, level 5 instead of stage 2, level 1. -/
theorem C1_counterexample :
    completeTestStep ⟨1, 4⟩ = ⟨1, 5⟩ ∧
    ¬ completeTestStep ⟨1, 4⟩ = ⟨2, 1⟩ ∧
    completeTestHandler true 80 1 4 (some ⟨1, 4⟩) = some ⟨1, 5⟩ := by
  decide

/-- Claim C1, amended: the test-history and test-completion-level-update
paths follow the stated rule (level below 4 increments the level with
the stage unchanged; level 4 rolls over to level 1 with the stage
incremented), while the legacy complete-test path increments the level
whenever it is at most 4 and rolls over only from level at least 5. -/
theorem C1_amended (p : SubjectProgress) (hl : 1 ≤ p.level) (hs : 1 ≤ p.stage) :
    (p.level < 4 →
      testHistoryStep p = ⟨p.stage, p.level + 1⟩ ∧
      ∀ a b, testCompletionLevelUpdate a b (some p) = ⟨p.stage, p.level + 1⟩) ∧
    (p.level = 4 →
      testHistoryStep p = ⟨p.stage + 1, 1⟩ ∧
      ∀ a b, testCompletionLevelUpdate a b (some p) = ⟨p.stage + 1, 1⟩) ∧
    (p.level ≤ 4 → completeTestStep p = ⟨p.stage, p.level + 1⟩) ∧
    (5 ≤ p.level → completeTestStep p = ⟨p.stage + 1, 1⟩) := by
  refine ⟨?_, ?_, ?_, ?_⟩ <;> intro h
  · refine ⟨?_, fun a b => ?_⟩ <;>
      simp only [testHistoryStep, testCompletionLevelUpdate, Option.getD_some] <;>
      split_ifs <;> simp_all <;> omega
  · refine ⟨?_, fun a b => ?_⟩ <;>
      simp only [testHistoryStep, testCompletionLevelUpdate, Option.getD_some] <;>
      split_ifs <;> simp_all <;> omega
  · simp only [completeTestStep]
    split_ifs <;> simp_all <;> omega
  · simp only [completeTestStep]
    split_ifs <;> simp_all

/-- Witness for the amended claim C1 at stage 1, level 2: a passing
attempt moves the record to stage 1, level 3 on both conforming paths. -/
theorem C1_amended_witness :
    testHistoryStep ⟨1, 2⟩ = ⟨1, 3⟩ ∧
    testCompletionLevelUpdate 0 0 (some ⟨1, 2⟩) = ⟨1, 3⟩ :=
  ⟨((C1_amended ⟨1, 2⟩ (by decide) (by decide)).1 (by decide)).1,
   ((C1_amended ⟨1, 2⟩ (by decide) (by decide)).1 (by decide)).2 0 0⟩

/-- The progression-update operations of the program, with the request
fields each handler reads: the legacy complete-test update, the
test-history update, the test-completion-level-update endpoint and the
update-level endpoint. -/
inductive ProgOp where
  | completeTest (passedLevel : Bool) (score : Int) (clientStage clientLevel : Nat)
  | testHistory (passedLevel : Bool)
  | testCompletion (clientCurrentLevel clientCurrentStage : Nat)
  | updateLevel (clientNewStage clientNewLevel : Nat)
  deriving DecidableEq, Repr

/-- Effect of one progression-update operation on the stored per-subject
record. -/
def applyOp : ProgOp → Option SubjectProgress → Option SubjectProgress
  | .completeTest pl sc cs cl, db => completeTestHandler pl sc cs cl db
  | .testHistory pl, db => testHistoryHandler pl db
  | .testCompletion ccl ccs, db => some (testCompletionLevelUpdate ccl ccs db)
  | .updateLevel ns nl, db => some (updateLevelHandler ns nl db)

/-- Effect of a sequence of progression-update operations. -/
def applyOps (ops : List ProgOp) (db : Option SubjectProgress) :
    Option SubjectProgress :=
  ops.foldl (fun s op => applyOp op s) db

/-- The two update paths that read the stored state and apply the
increment-or-rollover rule: the test-history update and the
test-completion-level-update endpoint. -/
def conformingOp : ProgOp → Bool
  | .testHistory _ => true
  | .testCompletion _ _ => true
  | _ => false

/-- The progression invariant of the spec data model: level in [1,4]
and stage at least 1. -/
def progInv (db : Option SubjectProgress) : Prop :=
  ∀ p, db = some p → 1 ≤ p.level ∧ p.level ≤ 4 ∧ 1 ≤ p.stage

theorem testHistoryStep_inv (p : SubjectProgress) :
    1 ≤ (testHistoryStep p).level ∧ (testHistoryStep p).level ≤ 4 ∧
    1 ≤ (testHistoryStep p).stage := by
  simp only [testHistoryStep]
  split_ifs <;> simp_all <;> omega

theorem testCompletionLevelUpdate_inv (a b : Nat) (db : Option SubjectProgress)
    (h : progInv db) :
    1 ≤ (testCompletionLevelUpdate a b db).level ∧
    (testCompletionLevelUpdate a b db).level ≤ 4 ∧
    1 ≤ (testCompletionLevelUpdate a b db).stage := by
  simp only [testCompletionLevelUpdate]
  cases db with
  | none => simp
  | some p =>
    have := h p rfl
    simp only [Option.getD_some]
    split_ifs <;> simp_all <;> omega

theorem conforming_preserves_inv (op : ProgOp) (hop : conformingOp op = true)
    (db : Option SubjectProgress) (h : progInv db) : progInv (applyOp op db) := by
  cases op with
  | completeTest pl sc cs cl => simp [conformingOp] at hop
  | updateLevel ns nl => simp [conformingOp] at hop
  | testHistory pl =>
    cases pl with
    | false => simpa [applyOp, testHistoryHandler] using h
    | true =>
      intro p hp
      simp only [applyOp, testHistoryHandler, if_pos, Option.some.injEq] at hp
      subst hp
      exact testHistoryStep_inv _
  | testCompletion a b =>
    intro p hp
    simp only [applyOp, Option.some.injEq] at hp
    subst hp
    exact testCompletionLevelUpdate_inv a b db h

theorem applyOps_inv (ops : List ProgOp) (hops : ops.all conformingOp = true)
    (db : Option SubjectProgress) (hdb : progInv db) :
    progInv (applyOps ops db) := by
  induction ops generalizing db with
  | nil => exact hdb
  | cons op rest ih =>
    rw [List.all_cons, Bool.and_eq_true] at hops
    exact ih hops.2 _ (conforming_preserves_inv op hops.1 db hdb)

/-- Claim C2 as stated fails: the state stage 1, level 5 is reachable
from the initial state by four passing legacy complete-test updates
whose client stage and level match the stored ones, and 5 is outside
[1,4]; a single update-level request can likewise store stage 1,
level 7 directly. -/
theorem C2_counterexample :
    applyOps [ProgOp.completeTest true 80 1 1, ProgOp.completeTest true 80 1 2,
              ProgOp.completeTest true 80 1 3, ProgOp.completeTest true 80 1 4]
        (some ⟨1, 1⟩) = some ⟨1, 5⟩ ∧
    ¬ (5 : Nat) ≤ 4 ∧
    applyOps [ProgOp.updateLevel 1 7] (some ⟨1, 1⟩) = some ⟨1, 7⟩ := by
  decide

/-- Claim C2, amended: under the test-history and the
test-completion-level-update operations alone, every record reachable
from the initial state stage 1, level 1 has level in [1,4]; and on
those operations the stage changes only when the stored level is 4,
in which case it increments by 1 and the level simultaneously resets
to 1.  The legacy complete-test path can reach level 5, and the
update-level endpoint stores arbitrary client-supplied values. -/
theorem C2_amended (ops : List ProgOp) (p : SubjectProgress)
    (hops : ops.all conformingOp = true)
    (hp : applyOps ops (some ⟨1, 1⟩) = some p) :
    (1 ≤ p.level ∧ p.level ≤ 4) ∧
    (∀ q r op, 1 ≤ q.level → q.level ≤ 4 → 1 ≤ q.stage →
      conformingOp op = true → applyOp op (some q) = some r →
      r.stage ≠ q.stage →
      q.level = 4 ∧ r.stage = q.stage + 1 ∧ r.level = 1) := by
  constructor
  · have hinv : progInv (applyOps ops (some ⟨1, 1⟩)) :=
      applyOps_inv ops hops (some ⟨1, 1⟩) (by
        intro q hq
        rw [Option.some.injEq] at hq
        subst hq
        decide)
    exact ⟨(hinv p hp).1, (hinv p hp).2.1⟩
  · intro q r op hl hu hs hop happ hne
    cases op with
    | completeTest pl sc cs cl => simp [conformingOp] at hop
    | updateLevel ns nl => simp [conformingOp] at hop
    | testHistory pl =>
      cases pl with
      | false =>
        simp only [applyOp, testHistoryHandler, if_neg, Bool.false_eq_true,
          not_false_iff, Option.some.injEq, reduceIte] at happ
        subst happ
        exact absurd rfl hne
      | true =>
        simp only [applyOp, testHistoryHandler, if_pos, Option.getD_some,
          Option.some.injEq, reduceIte] at happ
        subst happ
        simp only [testHistoryStep] at hne ⊢
        split_ifs at hne ⊢ <;> simp_all <;> omega
    | testCompletion a b =>
      simp only [applyOp, Option.some.injEq] at happ
      subst happ
      simp only [testCompletionLevelUpdate, Option.getD_some] at hne ⊢
      split_ifs at hne ⊢ <;> simp_all <;> omega

/-- Witness for the amended claim C2: one passing test-history update
from the initial state reaches stage 1, level 2, which is in [1,4]. -/
theorem C2_amended_witness :
    1 ≤ (⟨1, 2⟩ : SubjectProgress).level ∧ (⟨1, 2⟩ : SubjectProgress).level ≤ 4 :=
  (C2_amended [ProgOp.testHistory true] ⟨1, 2⟩ (by decide) (by decide)).1

/-- Claim C3 as stated fails: two update-level requests that differ only
in the client-supplied newLevel store different records, and two legacy
complete-test requests that differ only in the client-supplied stage
and level fields also store different records, because the guard
compares the client fields against the stored ones. -/
theorem C3_counterexample :
    updateLevelHandler 1 3 (some ⟨1, 1⟩) ≠ updateLevelHandler 1 2 (some ⟨1, 1⟩) ∧
    completeTestHandler true 80 1 1 (some ⟨1, 1⟩) ≠
      completeTestHandler true 80 0 0 (some ⟨1, 1⟩) := by
  decide

/-- Claim C3, amended: the test-completion-level-update path computes
the new record solely from the persisted one — two requests differing
only in the client-supplied currentLevel and currentStage fields leave
the record in the same state (and the test-history update reads no
client progression fields at all); the update-level endpoint instead
stores the client-supplied newLevel and newStage, and the legacy
complete-test guard reads the client stage and level. -/
theorem C3_amended (a b a2 b2 : Nat) (db : Option SubjectProgress) :
    testCompletionLevelUpdate a b db = testCompletionLevelUpdate a2 b2 db :=
  rfl

/-- Claim C4: a failing submission (pass flag false and score below 70)
leaves the stored progression record unchanged on both the legacy
complete-test path and the test-history path. -/
theorem C4_theorem (score : Int) (clientStage clientLevel : Nat)
    (db : Option SubjectProgress) (hscore : score < 70) :
    completeTestHandler false score clientStage clientLevel db = db ∧
    testHistoryHandler false db = db := by
  constructor
  · have h70 : ¬ (70 ≤ score) := by omega
    simp [completeTestHandler, h70]
  · simp [testHistoryHandler]

/-- Witness for claim C4: a failing submission with score 50 leaves the
record at stage 1, level 3 unchanged on both paths. -/
theorem C4_witness :
    completeTestHandler false 50 1 3 (some ⟨1, 3⟩) = some ⟨1, 3⟩ ∧
    testHistoryHandler false (some ⟨1, 3⟩) = some ⟨1, 3⟩ :=
  C4_theorem 50 1 3 (some ⟨1, 3⟩) (by decide)

/-- Recorded pass decision of the test-submission handlers (server.js
lines 817, 2793 and 3625): passedLevel is the client-supplied pass
flag, defaulted to false when absent, and the stored value is
passedLevel OR score at least 70. -/
def passedDecision (clientPassed : Bool) (score : Int) : Bool :=
  clientPassed || decide (70 ≤ score)

/-- Claim C5 as stated fails: a submission with the client pass flag
set and score 50 is recorded as passed although 50 is below the
threshold 70. -/
theorem C5_counterexample :
    passedDecision true 50 = true ∧ ¬ (70 ≤ (50 : Int)) := by
  decide

/-- Claim C5, amended: the recorded pass decision equals the client
pass flag OR score at least 70; hence a submission scoring at least 70
is always marked passed, and one scoring below 70 is marked not passed
exactly when the client pass flag is not set. -/
theorem C5_amended (clientPassed : Bool) (score : Int) :
    passedDecision clientPassed score = (clientPassed || decide (70 ≤ score)) ∧
    (70 ≤ score → passedDecision clientPassed score = true) ∧
    (clientPassed = false → score < 70 → passedDecision clientPassed score = false) := by
  refine ⟨rfl, ?_, ?_⟩
  · intro h
    simp [passedDecision, h]
  · intro hc h
    simp only [passedDecision, hc, Bool.false_or, decide_eq_false_iff_not]
    omega

/-- Witness for the amended claim C5: with the client flag unset, score
80 is recorded as passed and score 50 as not passed. -/
theorem C5_amended_witness :
    passedDecision false 80 = true ∧ passedDecision false 50 = false :=
  ⟨(C5_amended false 80).2.1 (by decide), (C5_amended false 50).2.2 rfl (by decide)⟩

/-- Per-topic progress record stored on a Student record (server.js,
studentSchema topicProgress field): best score percentage, completed
flag, attempt count and last-attempt timestamp (modelled as a Nat). -/
structure TopicProgress where
  progress : Nat
  completed : Bool
  attemptsCount : Nat
  lastAttemptDate : Nat
  deriving DecidableEq, Repr

/-- Topic-progress update of the practice branch of POST
/student/complete-test (server.js lines 2865-2877): best score is the
max of the stored value and the new score, completed becomes true when
the score is at least 70, the attempt count increments and the
timestamp is refreshed.  A missing record starts at progress 0, not
completed, zero attempts. -/
def completeTestTopicUpdate (existing : Option TopicProgress) (score now : Nat) :
    TopicProgress :=
  let cur := existing.getD ⟨0, false, 0, 0⟩
  ⟨max cur.progress score, decide (70 ≤ score) || cur.completed,
   cur.attemptsCount + 1, now⟩

/-- Topic-progress update of POST /student/update-topic-progress
(server.js lines 4134-4146): like the practice branch, except that the
completed flag is taken from the client-supplied completed field
rather than recomputed from the score. -/
def updateTopicProgressHandler (existing : Option TopicProgress)
    (clientProgress : Nat) (clientCompleted : Bool) (now : Nat) : TopicProgress :=
  let cur := existing.getD ⟨0, false, 0, 0⟩
  ⟨max cur.progress clientProgress, clientCompleted || cur.completed,
   cur.attemptsCount + 1, now⟩

/-- Claim C6 as stated fails on the update-topic-progress endpoint: a
request with score 10 but the client completed flag set marks the
topic completed although the stored record was not completed and 10 is
below the threshold 70. -/
theorem C6_counterexample :
    updateTopicProgressHandler none 10 true 5 = ⟨10, true, 1, 5⟩ ∧
    ¬ (70 ≤ (10 : Nat)) := by
  decide

/-- Claim C6, amended: at both update sites bestScore becomes the max
of the existing best and the new score, the attempt count increments
by exactly 1 and the timestamp becomes the update timestamp, so an
update with a score at most the existing best leaves bestScore
unchanged; completed becomes existing OR score at least 70 on the
complete-test practice path, but existing OR the client-supplied
completed flag on the update-topic-progress endpoint. -/
theorem C6_amended (cur : TopicProgress) (score now cp : Nat) (cc : Bool) :
    completeTestTopicUpdate (some cur) score now =
      ⟨max cur.progress score, decide (70 ≤ score) || cur.completed,
       cur.attemptsCount + 1, now⟩ ∧
    updateTopicProgressHandler (some cur) cp cc now =
      ⟨max cur.progress cp, cc || cur.completed, cur.attemptsCount + 1, now⟩ ∧
    (score ≤ cur.progress →
      (completeTestTopicUpdate (some cur) score now).progress = cur.progress) := by
  refine ⟨rfl, rfl, fun h => ?_⟩
  simp [completeTestTopicUpdate, Nat.max_eq_left h]

/-- Witness for the amended claim C6 at a stored record with best 80,
not completed, 2 attempts: a new attempt scoring 75 raises nothing but
the count, and an attempt scoring 50 leaves the best score 80. -/
theorem C6_amended_witness :
    completeTestTopicUpdate (some ⟨80, false, 2, 0⟩) 75 9 = ⟨80, true, 3, 9⟩ ∧
    (completeTestTopicUpdate (some ⟨80, false, 2, 0⟩) 50 9).progress = 80 :=
  ⟨(C6_amended ⟨80, false, 2, 0⟩ 75 9 0 false).1,
   (C6_amended ⟨80, false, 2, 0⟩ 50 9 0 false).2.2 (by decide)⟩

/-- JavaScript truthiness of a stored isCorrect flag: only an explicit
true counts; false and a missing value are falsy. -/
def truthy : Option Bool → Bool
  | some b => b
  | none => false

/-- Count of outcomes with a truthy isCorrect flag, as computed by
questions.filter taking q.isCorrect (server.js lines 3696 and 4258). -/
def correctCount (qs : List (Option Bool)) : Nat :=
  (qs.filter truthy).length

/-- Math.round of 100 * c / t for nonnegative inputs: the JS handlers
compute Math.round((correctCount / totalQuestions) * 100), which for
c / t rational equals the floor of (200 c + t) / (2 t). -/
def roundPct (c t : Nat) : Nat :=
  (200 * c + t) / (2 * t)

/-- Score returned by GET /student/test-history/:testId (server.js
lines 3693-3704): when the stored score is 0 or missing and the
outcome list is non-empty, the score is recomputed from the outcome
list; otherwise the stored value is returned unchanged. -/
def studentReadScore (stored : Option Nat) (qs : List (Option Bool)) : Option Nat :=
  if stored = some 0 ∨ stored = none then
    if 0 < qs.length then some (roundPct (correctCount qs) qs.length) else stored
  else stored

/-- Score returned by GET /admin/test-history/:testId (server.js lines
4255-4266): like the student read path, but the recomputation
additionally requires at least one correct outcome. -/
def adminReadScore (stored : Option Nat) (qs : List (Option Bool)) : Option Nat :=
  if stored = none ∨ stored = some 0 then
    if 0 < qs.length then
      if 0 < correctCount qs then
        some (roundPct (correctCount qs) qs.length)
      else stored
    else stored
  else stored

/-- Claim C7 as stated fails: on the admin read path a missing stored
score with a non-empty, all-incorrect outcome list is returned still
missing rather than as the recomputed 0; and on the student path a
missing stored score with an empty outcome list is returned missing,
not 0. -/
theorem C7_counterexample :
    adminReadScore none [some false] = none ∧
    roundPct (correctCount [some false]) 1 = 0 ∧
    studentReadScore none [] = none := by
  decide

/-- Claim C7, amended: with the stored score missing or zero, the
student read path returns the recomputed round(100 * correct / total)
for every non-empty outcome list; the admin path does so when at least
one outcome is correct, and otherwise returns the stored value
unchanged — which equals the recomputed 0 when the stored score is 0,
while a missing score stays missing; for an empty outcome list both
paths return the stored value unchanged and perform no division. -/
theorem C7_amended (stored : Option Nat) (qs : List (Option Bool))
    (hms : stored = none ∨ stored = some 0) :
    (qs ≠ [] → studentReadScore stored qs =
      some (roundPct (correctCount qs) qs.length)) ∧
    (qs ≠ [] → 0 < correctCount qs → adminReadScore stored qs =
      some (roundPct (correctCount qs) qs.length)) ∧
    (stored = some 0 → qs ≠ [] → correctCount qs = 0 →
      adminReadScore stored qs = some (roundPct (correctCount qs) qs.length)) ∧
    (correctCount qs = 0 → adminReadScore stored qs = stored) ∧
    studentReadScore stored [] = stored ∧
    adminReadScore stored [] = stored := by
  refine ⟨?_, ?_, ?_, ?_, ?_, ?_⟩
  · intro h
    unfold studentReadScore
    rw [if_pos (Or.symm hms), if_pos (List.length_pos.mpr h)]
  · intro h hc
    unfold adminReadScore
    rw [if_pos hms, if_pos (List.length_pos.mpr h), if_pos hc]
  · intro h0 hne hc
    subst h0
    unfold adminReadScore
    rw [if_pos (Or.inr rfl), if_pos (List.length_pos.mpr hne),
      if_neg (by omega), hc]
    have hlen : 0 < qs.length := List.length_pos.mpr hne
    have : roundPct 0 qs.length = 0 := by
      unfold roundPct
      rw [Nat.mul_zero, Nat.zero_add]
      exact Nat.div_eq_of_lt (by omega)
    rw [this]
  · intro hc
    unfold adminReadScore
    split_ifs with h1 h2 h3 <;> first | rfl | omega
  · unfold studentReadScore
    split_ifs <;> simp_all
  · unfold adminReadScore
    split_ifs <;> simp_all

/-- Witness for the amended claim C7: a stored score of 0 with outcomes
[correct, incorrect] reads back as 50 on both paths, and an empty list
returns the stored 0 unchanged. -/
theorem C7_amended_witness :
    studentReadScore (some 0) [some true, some false] = some 50 ∧
    adminReadScore (some 0) [some true, some false] = some 50 ∧
    studentReadScore (some 0) [] = some 0 :=
  ⟨by
    have h := (C7_amended (some 0) [some true, some false] (Or.inr rfl)).1
      (by decide)
    simpa using h,
   by
    have h := (C7_amended (some 0) [some true, some false] (Or.inr rfl)).2.1
      (by decide) (by decide)
    simpa using h,
   (C7_amended (some 0) [] (Or.inr rfl)).2.2.2.2.1⟩

/-- The fixed option-letter ordering used throughout the handlers. -/
def letters : List Char := ['A', 'B', 'C', 'D']

/-- GET /student/test (server.js lines 765-766): a numeric correctOption
index is converted to the letter at that position of the fixed list
before the question is sent out to be answered. -/
def correctOptionToLetter (i : Nat) : Option Char :=
  letters.get? i

/-- Modelled from the spec: the Answer Grader letter normalization of
section 4.1, which is performed client-side and is not under src —
letters map to indices via the fixed ordering A=0, B=1, C=2, D=3, and
any other value maps to nothing. -/
def letterToIndex (c : Char) : Option Nat :=
  if c = 'A' then some 0
  else if c = 'B' then some 1
  else if c = 'C' then some 2
  else if c = 'D' then some 3
  else none

/-- Modelled from the spec: grading a submitted letter against a
correctOption stored as a zero-based index — the letter is normalized
to an index and compared; a value outside A-D is always incorrect. -/
def gradeLetterAgainstIndex (i : Nat) (submitted : Char) : Bool :=
  match letterToIndex submitted with
  | some j => j == i
  | none => false

theorem letterToIndex_eq_some (c : Char) (j : Nat)
    (h : letterToIndex c = some j) : letters.get? j = some c := by
  unfold letterToIndex at h
  split_ifs at h with h1 h2 h3 h4
  · injection h with h5
    subst h5
    subst h1
    decide
  · injection h with h5
    subst h5
    subst h2
    decide
  · injection h with h5
    subst h5
    subst h3
    decide
  · injection h with h5
    subst h5
    subst h4
    decide

/-- Claim C8: for a Question whose correctOption is the zero-based
index i, grading the letter at position i of the fixed ordering
A, B, C, D yields isCorrect true, and grading any other submitted
character yields false. -/
theorem C8_theorem (i : Nat) (hi : i < 4) (sub ℓ : Char)
    (hℓ : correctOptionToLetter i = some ℓ) :
    gradeLetterAgainstIndex i ℓ = true ∧
    (sub ≠ ℓ → gradeLetterAgainstIndex i sub = false) := by
  constructor
  · interval_cases i <;>
    · simp only [correctOptionToLetter, letters] at hℓ
      simp only [List.get?] at hℓ
      injection hℓ with h
      subst h
      decide
  · intro hsub
    rcases hj : letterToIndex sub with _ | j
    · simp [gradeLetterAgainstIndex, hj]
    · simp only [gradeLetterAgainstIndex, hj]
      rw [beq_eq_false_iff_ne]
      intro hji
      subst hji
      have h2 := letterToIndex_eq_some sub j hj
      unfold correctOptionToLetter at hℓ
      rw [h2] at hℓ
      exact hsub (by injection hℓ)

/-- Witness for claim C8 at index 2: the letter C grades correct and
the letter B grades incorrect. -/
theorem C8_witness :
    gradeLetterAgainstIndex 2 'C' = true ∧ gradeLetterAgainstIndex 2 'B' = false :=
  ⟨(C8_theorem 2 (by decide) 'B' 'C' (by decide)).1,
   (C8_theorem 2 (by decide) 'B' 'C' (by decide)).2 (by decide)⟩

/-- Modelled from the spec: the two scoring regimes of section 4.2,
selected by a configuration parameter. -/
inductive ScoringMode where
  | percentage
  | negativeMarking
  deriving DecidableEq, Repr

/-- Modelled from the spec: the negative-marking raw score — +4 per
correct answer and -1 per incorrect answer; the legacy endpoint
implementing it is not under src. -/
def negativeMarkingScore (correct incorrect : Nat) : Int :=
  4 * (correct : Int) - (incorrect : Int)

/-- Modelled from the spec: the maximum possible negative-marking
score, 4 per question. -/
def negativeMarkingMaxScore (total : Nat) : Int :=
  4 * (total : Int)

/-- Modelled from the spec: the Score Aggregator percentage under a
scoring-mode parameter — percentage mode rounds 100 * correct / total,
negative-marking mode normalizes the raw score against the maximum
possible score; an empty test scores 0 in either mode. -/
def aggregatePercentage (mode : ScoringMode) (correct incorrect total : Nat) : Int :=
  match mode with
  | .percentage => if total = 0 then 0 else (roundPct correct total : Int)
  | .negativeMarking =>
      if total = 0 then 0
      else 100 * negativeMarkingScore correct incorrect /
        negativeMarkingMaxScore total

/-- Claim C9: in negative-marking mode a 5-question test with 4 correct
and 1 incorrect answer scores 4*4 - 1 = 15 of a maximum 20, i.e. 75
percent, while percentage mode gives the same outcome list 80. -/
theorem C9_theorem :
    negativeMarkingScore 4 1 = 15 ∧
    negativeMarkingMaxScore 5 = 20 ∧
    aggregatePercentage ScoringMode.negativeMarking 4 1 5 = 75 ∧
    aggregatePercentage ScoringMode.percentage 4 1 5 = 80 := by
  decide

/-- Count of questions with a truthy isCorrect flag in POST
/student/complete-test (server.js line 2705). -/
def correctAnswers (qs : List (Option Bool)) : Nat :=
  (qs.filter truthy).length

/-- Count of questions with a falsy isCorrect flag — false or missing,
including unanswered questions — in POST /student/complete-test
(server.js line 2706). -/
def incorrectAnswers (qs : List (Option Bool)) : Nat :=
  (qs.filter (fun q => !truthy q)).length

/-- Unanswered count of POST /student/complete-test (server.js line
2707): the list length minus the correct and incorrect counts. -/
def unanswered (qs : List (Option Bool)) : Nat :=
  qs.length - correctAnswers qs - incorrectAnswers qs

theorem correct_add_incorrect (qs : List (Option Bool)) :
    correctAnswers qs + incorrectAnswers qs = qs.length := by
  induction qs with
  | nil => rfl
  | cons q rest ih =>
    simp only [correctAnswers, incorrectAnswers, List.filter_cons] at ih ⊢
    cases hq : truthy q <;> simp_all <;> omega

/-- Claim C10: the computed metrics always satisfy correctAnswers +
incorrectAnswers = totalQuestions and unanswered = 0; a question with
a missing isCorrect flag — in particular an unanswered one — is
counted as incorrect exactly like a wrong answer. -/
theorem C10_theorem (qs : List (Option Bool)) :
    correctAnswers qs + incorrectAnswers qs = qs.length ∧
    unanswered qs = 0 ∧
    incorrectAnswers (none :: qs) = incorrectAnswers qs + 1 := by
  have h := correct_add_incorrect qs
  refine ⟨h, ?_, ?_⟩
  · simp only [unanswered]
    omega
  · simp [incorrectAnswers, List.filter_cons, truthy]

end Zerreta
